import Mathlib

/-!
Shallow embedding of the scan engine in src/server.py: token catalog
refresh, DexScreener pricing, the scan cycle, the Jupiter quote adapter,
the run_bot scheduler loop, and the start/stop control plane.
-/

/-- A dynamically typed scalar as it can arrive in a JSON payload field
such as pair.liquidity.usd: either a number or a string. -/
inductive PyVal where
  | num (q : ℚ)
  | str (s : String)
deriving DecidableEq

/-- Whether a dynamically typed scalar is numeric. -/
def PyVal.isNum : PyVal → Bool
  | .num _ => true
  | .str _ => false

/-- Python 3 comparison v < q between a payload scalar and a number:
raises TypeError (modelled as an error) when the scalar is a string. -/
def pyLt (v : PyVal) (q : ℚ) : Except Unit Bool :=
  match v with
  | .num x => .ok (decide (x < q))
  | .str _ => .error ()

/-- Python 3 comparison v > q, failing on strings like pyLt. -/
def pyGt (v : PyVal) (q : ℚ) : Except Unit Bool :=
  match v with
  | .num x => .ok (decide (q < x))
  | .str _ => .error ()

/-- One entry of the CoinGecko coins/markets payload with the fields the
refresh reads: market_cap (default 0 when absent), platforms.solana and
symbol, plus the market metrics the specification's qualification filters
mention (liquidity, 24h volume, 24h price change), which the code never
reads. -/
structure Coin where
  symbol : String
  market_cap : ℚ
  platformsSolana : Option String
  liquidity : ℚ
  volume24h : ℚ
  priceChange24h : ℚ
deriving DecidableEq

/-- Python truthiness of platforms.get applied to the solana key: false
for a missing value and for the empty string. -/
def truthyAddr : Option String → Bool
  | none => false
  | some s => !s.isEmpty

/-- The admission test fetch_solana_tokens applies to one coin: market
cap at least 1,000,000 and a truthy solana platform address. -/
def coinAdmitted (c : Coin) : Bool :=
  !(decide (c.market_cap < 1000000)) && truthyAddr c.platformsSolana

/-- The Python upper call on a symbol string, character by character
(identical to Python for the ASCII ticker symbols involved). -/
def upperAscii (s : String) : String :=
  String.mk (s.data.map Char.toUpper)

/-- Python dict assignment d[k] = v on an association list: replaces the
value in place when the key exists, appends otherwise. -/
def dictInsert (m : List (String × String)) (k v : String) : List (String × String) :=
  if m.any (fun p => p.1 == k) then
    m.map (fun p => if p.1 == k then (k, v) else p)
  else m ++ [(k, v)]

/-- The token dictionary one successful CoinGecko response builds:
iterate over the coins, skip those failing the admission test, and store
the upper-cased symbol mapped to the solana address. -/
def buildTokens (coins : List Coin) : List (String × String) :=
  coins.foldl
    (fun m c =>
      if coinAdmitted c then dictInsert m (upperAscii c.symbol) (c.platformsSolana.getD "")
      else m)
    []

/-- Outcome of one discovery request attempt inside fetch_solana_tokens:
rate limited (HTTP 429, wait and retry), another non-200 status, an
exception, or a parsed payload. -/
inductive Attempt where
  | rateLimited
  | httpError (status : ℕ)
  | exn
  | ok (coins : List Coin)
deriving DecidableEq

/-- The fixed fallback token set assigned when no attempt yields tokens. -/
def fallbackTokens : List (String × String) :=
  [("BONK", "DezXAZ8z7PnrnRJjz3wXBoRgixCa6xjnB7YaB1pPB263"),
   ("WIF", "EKpQGSJtjMFqKZ9KQanSqYXRcF8fBopzLHYxdM65zcjm"),
   ("POPCAT", "7GCihgDB8fe6KNjn2MYtkzZcRjQy3t9GHdC8uHYmW2hr"),
   ("TRUMP", "6p6xgHyF7AeE6TZkSmFsko444wqoP15icUSqi2jfGiPN")]

/-- The retry loop of fetch_solana_tokens: the first attempt whose
payload builds a non-empty token dictionary wins; every other outcome
moves to the next attempt; when the attempts are exhausted the fallback
set is assigned. -/
def fetchLoop : List Attempt → List (String × String)
  | [] => fallbackTokens
  | .ok coins :: rest =>
      if (buildTokens coins).isEmpty then fetchLoop rest else buildTokens coins
  | .rateLimited :: rest => fetchLoop rest
  | .httpError _ :: rest => fetchLoop rest
  | .exn :: rest => fetchLoop rest

/-- fetch_solana_tokens: at most five request attempts; the first
argument is the token catalog held in self.tokens on entry (it is
overwritten unconditionally by the method body), the result is the
catalog after the call returns. -/
def fetch_solana_tokens (_prev : List (String × String)) (attempts : List Attempt) :
    List (String × String) :=
  fetchLoop (attempts.take 5)

/-- Whether a discovery attempt fails to yield a non-empty qualifying
token set. -/
def attemptQualifiesEmpty : Attempt → Bool
  | .ok coins => (buildTokens coins).isEmpty
  | _ => true

/-- The state run_bot observes: the token catalog, the run flag, and
counters for completed catalog fetches and scan cycles. -/
structure BotState where
  tokens : List (String × String)
  running : Bool
  fetchCount : ℕ
  scanCount : ℕ
deriving DecidableEq

/-- The startup section of run_bot: fetch the catalog once, and only when
it is empty. -/
def runBotInit (attempts : List Attempt) (s : BotState) : BotState :=
  if s.tokens.isEmpty then
    { tokens := fetch_solana_tokens s.tokens attempts
      running := s.running
      fetchCount := s.fetchCount + 1
      scanCount := s.scanCount }
  else s

/-- One iteration of the while-true loop of run_bot: when the run flag is
set one scan cycle runs; in either case no catalog refresh happens and
the iteration ends with a 180 second sleep. -/
def runBotTick (s : BotState) : BotState :=
  if s.running then { s with scanCount := s.scanCount + 1 } else s

/-- n iterations of the run_bot loop. -/
def runBotTicks : ℕ → BotState → BotState
  | 0, s => s
  | n + 1, s => runBotTicks n (runBotTick s)

/-- One pair object of a DexScreener token payload, with the fields
get_dexscreener_price reads; liquidityUsd is the sort key value of
pair.liquidity.usd with its default 0 already applied. -/
structure DsPair where
  chainId : String
  dexId : String
  priceUsd : Option ℚ
  liquidityUsd : ℚ
deriving DecidableEq

/-- Outcome of the HTTP request inside get_dexscreener_price: an
exception, or a status code with the payload's pair list (none when the
pairs key is missing). -/
inductive DsResult where
  | exn
  | http (status : ℕ) (pairs : Option (List DsPair))
deriving DecidableEq

/-- Stable descending insertion of one pair by liquidity: the new pair
goes in front of the first resident pair whose key is not larger. -/
def insertByLiqDesc (x : DsPair) : List DsPair → List DsPair
  | [] => [x]
  | y :: ys =>
      if y.liquidityUsd ≤ x.liquidityUsd then x :: y :: ys
      else y :: insertByLiqDesc x ys

/-- Stable descending sort of the pair list by liquidity, matching the
Python sorted call with the liquidity key and reverse order. -/
def sortByLiqDesc : List DsPair → List DsPair
  | [] => []
  | x :: xs => insertByLiqDesc x (sortByLiqDesc xs)

/-- get_dexscreener_price: none on an exception, a non-200 status, or a
missing or empty pair list; otherwise the price of the highest-liquidity
solana raydium pair carrying a price, and failing that the first solana
pair in payload order carrying a price. -/
def get_dexscreener_price (r : DsResult) : Option ℚ :=
  match r with
  | .exn => none
  | .http status pairs =>
    if status ≠ 200 then none
    else
      match pairs with
      | none => none
      | some [] => none
      | some ps =>
        match (sortByLiqDesc ps).find?
            (fun p => p.chainId == "solana" && p.dexId == "raydium" && p.priceUsd.isSome) with
        | some p => p.priceUsd
        | none =>
          match ps.find? (fun p => p.chainId == "solana" && p.priceUsd.isSome) with
          | some p => p.priceUsd
          | none => none

/-- One pair of the payload the liquidity request in the scan loop
fetches: its dex identifier and the raw pair.liquidity.usd scalar, with
the default number 0 already applied when the key is absent. -/
structure LiqPair where
  dexId : String
  liquidityUsd : PyVal
deriving DecidableEq

/-- Outcome of the liquidity request in scan_for_opportunities. -/
inductive LiqResult where
  | exn
  | http (status : ℕ) (pairs : Option (List LiqPair))
deriving DecidableEq

/-- The guarded liquidity block of the scan loop: liquidity_usd starts at
0 and is replaced by the liquidity scalar of the first raydium pair when
the request succeeds with usable pairs; an exception inside the block is
caught and leaves 0. -/
def fetchLiquidity (r : LiqResult) : PyVal :=
  match r with
  | .exn => .num 0
  | .http status pairs =>
    if status ≠ 200 then .num 0
    else
      match pairs with
      | none => .num 0
      | some [] => .num 0
      | some ps =>
        match ps.find? (fun p => p.dexId == "raydium") with
        | some p => p.liquidityUsd
        | none => .num 0

/-- The external responses one catalog entry observes during a scan
cycle: the price request and the liquidity request. -/
structure EntryData where
  priceResp : DsResult
  liqResp : LiqResult
deriving DecidableEq

/-- What the scan loop did with one entry; diffPct is the difference
figure the loop assigns and executed records an execution submission. -/
inductive EntryOutcome where
  | skipNoPrice (symbol : String)
  | skipLowLiquidity (symbol : String) (liq : PyVal)
  | scanned (symbol : String) (price : ℚ) (liq : PyVal) (diffPct : ℚ)
      (highPotential : Bool) (executed : Bool)
deriving DecidableEq

/-- The body of the scan loop for one entry: skip when no price, then
compare the liquidity scalar with 50000 and 100000; both comparisons sit
outside the guarded blocks and raise when the payload supplied a string
for the liquidity value. The retained entry carries the hard-coded
difference figure 0 and no execution. -/
def processEntry (symbol : String) (e : EntryData) : Except Unit EntryOutcome :=
  match get_dexscreener_price e.priceResp with
  | none => .ok (.skipNoPrice symbol)
  | some p =>
    match pyLt (fetchLiquidity e.liqResp) 50000 with
    | .error err => .error err
    | .ok true => .ok (.skipLowLiquidity symbol (fetchLiquidity e.liqResp))
    | .ok false =>
      match pyGt (fetchLiquidity e.liqResp) 100000 with
      | .error err => .error err
      | .ok hp => .ok (.scanned symbol p (fetchLiquidity e.liqResp) 0 hp false)

/-- The entry loop of scan_for_opportunities over symbol and address
pairs, with env giving each address its responses: the outcomes of the
processed entries, and the uncaught exception when one ended the loop
early. -/
def scanLoop (env : String → EntryData) :
    List (String × String) → List EntryOutcome × Option Unit
  | [] => ([], none)
  | (symbol, address) :: rest =>
    match processEntry symbol (env address) with
    | .error err => ([], some err)
    | .ok o =>
      let r := scanLoop env rest
      (o :: r.1, r.2)

/-- scan_for_opportunities: the loop runs over the first 30 catalog
entries only. -/
def scan_for_opportunities (tokens : List (String × String)) (env : String → EntryData) :
    List EntryOutcome × Option Unit :=
  scanLoop env (tokens.take 30)

/-- Whether an outcome records an execution submission. -/
def EntryOutcome.isExecuted : EntryOutcome → Bool
  | .scanned _ _ _ _ _ executed => executed
  | _ => false

/-- Number of execution submissions recorded in a list of outcomes. -/
def execCount (os : List EntryOutcome) : ℕ :=
  os.countP fun o => o.isExecuted

/-- The configuration dictionary built in the constructor. -/
structure BotConfig where
  slippage_bps : ℕ
  swap_amount_sol : ℚ
  simulate : Bool
deriving DecidableEq

/-- self.config as assigned in the constructor of ArbitrageBot. -/
def defaultConfig : BotConfig :=
  { slippage_bps := 100, swap_amount_sol := 5 / 100, simulate := true }

/-- One route of the Jupiter quote payload with the fields read by the
caller: input and output amounts plus opaque route metadata. -/
structure Route where
  inAmount : ℕ
  outAmount : ℕ
  meta : String
deriving DecidableEq

/-- A parsed 200-class Jupiter response body: the status code and the
value under the data key, when present, as a route list. -/
structure JupResponse where
  status : ℕ
  routes : Option (List Route)
deriving DecidableEq

/-- get_jupiter_quote: the whole request sits in one guarded block, so an
exception, a non-200 status, and a missing or empty route list all yield
none; otherwise the first route of the payload is returned. -/
def get_jupiter_quote (r : Except Unit JupResponse) : Option Route :=
  match r with
  | .error _ => none
  | .ok resp =>
    if resp.status ≠ 200 then none
    else
      match resp.routes with
      | none => none
      | some [] => none
      | some (r0 :: _) => some r0

/-- An HTTP result of a control-plane handler: a success body or an
error status code. -/
inductive ApiResult where
  | ok (body : String)
  | err (status : ℕ)
deriving DecidableEq

/-- verify_api_key: rejects with HTTP 401 when the presented credential
differs from the configured key. -/
def verify_api_key (apiKey cred : String) : Except ℕ Unit :=
  if cred ≠ apiKey then .error 401 else .ok ()

/-- Modelled from the spec: the bearer security dependency guarding the
start and stop routes lives in the web framework outside this
repository; per the specification a request carrying no credential is
rejected with HTTP 401 before the handler body runs, with no state
mutation. -/
def missingCredentialStatus : ℕ := 401

/-- The start handler: given the configured key, the current run flag
and the optional presented credential, returns the new run flag and the
HTTP result. -/
def handleStart (apiKey : String) (running : Bool) (cred : Option String) :
    Bool × ApiResult :=
  match cred with
  | none => (running, .err missingCredentialStatus)
  | some c =>
    match verify_api_key apiKey c with
    | .error s => (running, .err s)
    | .ok _ => (true, .ok "started")

/-- The stop handler, dual to handleStart. -/
def handleStop (apiKey : String) (running : Bool) (cred : Option String) :
    Bool × ApiResult :=
  match cred with
  | none => (running, .err missingCredentialStatus)
  | some c =>
    match verify_api_key apiKey c with
    | .error s => (running, .err s)
    | .ok _ => (false, .ok "stopped")

/-- The thresholds the specification's qualification filters name: the
spec calls them configuration constants without fixing values, so they
are parameters here. -/
structure QualThresholds where
  minMarketCap : ℚ
  minLiquidity : ℚ
  volBandLo : ℚ
  volBandHi : ℚ
  maxChange24h : ℚ
deriving DecidableEq

/-- Qualification following the specification's words, for comparison
with the admission test of the code: minimum market capitalization,
minimum liquidity, volume-to-market-cap quotient inside a band (stated
multiplicatively), a cap on the magnitude of the 24h price change, and a
usable address. -/
def specQualifies (t : QualThresholds) (c : Coin) : Bool :=
  decide (t.minMarketCap ≤ c.market_cap) &&
  decide (t.minLiquidity ≤ c.liquidity) &&
  decide (t.volBandLo * c.market_cap ≤ c.volume24h) &&
  decide (c.volume24h ≤ t.volBandHi * c.market_cap) &&
  decide (-t.maxChange24h ≤ c.priceChange24h) &&
  decide (c.priceChange24h ≤ t.maxChange24h) &&
  truthyAddr c.platformsSolana

/-- A coin with healthy market cap and address but zero liquidity, zero
volume and an extreme 24h move. -/
def cexCoin : Coin :=
  { symbol := "aaa", market_cap := 2000000, platformsSolana := some "AaaAddr",
    liquidity := 0, volume24h := 0, priceChange24h := 90 }

/-- Concrete threshold values: the market-cap floor of the code, the
50,000 liquidity floor the scan loop uses later, a volume band of 1% to
100x of market cap, and a 50% cap on the 24h move. -/
def cexThresholds : QualThresholds :=
  { minMarketCap := 1000000, minLiquidity := 50000, volBandLo := 1 / 100,
    volBandHi := 100, maxChange24h := 50 }

/-- A priced solana raydium pair with 120,000 liquidity, price 1.5. -/
def examplePair : DsPair :=
  { chainId := "solana", dexId := "raydium", priceUsd := some (3 / 2),
    liquidityUsd := 120000 }

/-- Responses realizing the specification's example scenario for one
well-behaved entry: a priced solana raydium pair with 120,000 liquidity. -/
def exampleEntryData : EntryData :=
  { priceResp := .http 200 (some [examplePair])
    liqResp := .http 200 (some [{ dexId := "raydium", liquidityUsd := .num 120000 }]) }

/-- An entry whose liquidity payload carries a string where a number is
expected, a malformed but well-formed-JSON response. -/
def poisonEntry : EntryData :=
  { priceResp := .http 200 (some [{ chainId := "solana", dexId := "raydium", priceUsd := some 1, liquidityUsd := 1 }])
    liqResp := .http 200 (some [{ dexId := "raydium", liquidityUsd := .str "120000" }]) }

/-- Environment answering the first address with the malformed entry and
every other address with the well-behaved one. -/
def cexEnv : String → EntryData :=
  fun a => if a == "addr1" then poisonEntry else exampleEntryData

/-- Scheduler start state: empty catalog, run flag set, zero counters. -/
def cexStartState : BotState :=
  { tokens := [], running := true, fetchCount := 0, scanCount := 0 }

/-- A concrete Jupiter route. -/
def route0 : Route :=
  { inAmount := 50000000, outAmount := 51000000, meta := "r" }

/-! Theorems. -/

theorem runBotTick_tokens (s : BotState) : (runBotTick s).tokens = s.tokens := by
  unfold runBotTick
  split <;> rfl

theorem runBotTick_fetchCount (s : BotState) : (runBotTick s).fetchCount = s.fetchCount := by
  unfold runBotTick
  split <;> rfl

theorem runBotTicks_tokens (n : ℕ) (s : BotState) :
    (runBotTicks n s).tokens = s.tokens := by
  induction n generalizing s with
  | zero => rfl
  | succ n ih =>
    simp only [runBotTicks]
    rw [ih, runBotTick_tokens]

theorem runBotTicks_fetchCount (n : ℕ) (s : BotState) :
    (runBotTicks n s).fetchCount = s.fetchCount := by
  induction n generalizing s with
  | zero => rfl
  | succ n ih =>
    simp only [runBotTicks]
    rw [ih, runBotTick_fetchCount]

theorem runBotTicks_scanCount_of_running (n : ℕ) (s : BotState) (h : s.running = true) :
    (runBotTicks n s).scanCount = s.scanCount + n := by
  induction n generalizing s with
  | zero => rfl
  | succ n ih =>
    simp only [runBotTicks]
    have hrun : (runBotTick s).running = true := by
      unfold runBotTick
      rw [if_pos h]
      exact h
    rw [ih _ hrun]
    unfold runBotTick
    rw [if_pos h]
    show s.scanCount + 1 + n = s.scanCount + (n + 1)
    omega

/-- C1: at the specification's example scenario (outbound input
50,000,000 lamports, return output 51,000,000 lamports, reference price
150) the scan performs no round-trip quoting and computes no profit: the
single outcome carries the hard-coded difference figure 0, not the
profitBase of 1,000,000 and profitReference of 0.15 the claim requires,
and no execution is recorded. -/
theorem scan_profit_never_computed :
    scan_for_opportunities [("AAA", "addr1")] (fun _ => exampleEntryData) =
      ([.scanned "AAA" (3 / 2) (.num 120000) 0 true false], none) ∧
    execCount (scan_for_opportunities [("AAA", "addr1")] (fun _ => exampleEntryData)).1 = 0 := by
  exact ⟨rfl, rfl⟩

/-- C2 counterexample: from an empty catalog with the run flag set and a
failing discovery call, after startup plus 100 further loop iterations
(100 scan ticks, each ending in a 180 second sleep, so far beyond any
catalog-refresh period) the catalog has been fetched exactly once and is
unchanged: the loop never refreshes it, contradicting the claimed
periodic refresh. -/
theorem run_bot_never_refreshes_cex :
    (runBotTicks 100 (runBotInit [.exn] cexStartState)).fetchCount = 1 ∧
    (runBotTicks 100 (runBotInit [.exn] cexStartState)).tokens = fallbackTokens ∧
    (runBotTicks 100 (runBotInit [.exn] cexStartState)).scanCount = 100 := by
  refine ⟨?_, ?_, ?_⟩
  · rw [runBotTicks_fetchCount]
    rfl
  · rw [runBotTicks_tokens]
    rfl
  · rw [runBotTicks_scanCount_of_running 100 _ rfl]
    rfl

/-- C2 (amended): the catalog is fetched at most once, at startup and
only when it is empty; loop iterations never change the catalog or the
fetch count, and an iteration runs exactly one scan cycle when the run
flag is set and none otherwise. -/
theorem run_bot_refresh_only_at_startup (s : BotState) (attempts : List Attempt) (n : ℕ) :
    (runBotTicks n (runBotInit attempts s)).tokens = (runBotInit attempts s).tokens ∧
    (runBotTicks n (runBotInit attempts s)).fetchCount = (runBotInit attempts s).fetchCount ∧
    (runBotInit attempts s).fetchCount = s.fetchCount + (if s.tokens.isEmpty then 1 else 0) ∧
    (runBotTick s).scanCount = s.scanCount + (if s.running then 1 else 0) := by
  refine ⟨runBotTicks_tokens n _, runBotTicks_fetchCount n _, ?_, ?_⟩
  · unfold runBotInit
    split <;> rename_i h <;> simp [h]
  · unfold runBotTick
    split <;> rename_i h <;> simp [h]

theorem fetchLoop_ne_nil (l : List Attempt) : fetchLoop l ≠ [] := by
  induction l with
  | nil => simp [fetchLoop, fallbackTokens]
  | cons a rest ih =>
    cases a with
    | rateLimited => simpa [fetchLoop] using ih
    | httpError s => simpa [fetchLoop] using ih
    | exn => simpa [fetchLoop] using ih
    | ok coins =>
      simp only [fetchLoop]
      split
      · exact ih
      · rename_i h
        simpa [List.isEmpty_iff] using h

theorem fetchLoop_all_empty (l : List Attempt)
    (h : ∀ a ∈ l, attemptQualifiesEmpty a = true) : fetchLoop l = fallbackTokens := by
  induction l with
  | nil => rfl
  | cons a rest ih =>
    have ha := h a (List.mem_cons_self a rest)
    have hrest : ∀ x ∈ rest, attemptQualifiesEmpty x = true :=
      fun x hx => h x (List.mem_cons_of_mem a hx)
    cases a with
    | rateLimited => simpa [fetchLoop] using ih hrest
    | httpError s => simpa [fetchLoop] using ih hrest
    | exn => simpa [fetchLoop] using ih hrest
    | ok coins =>
      simp only [fetchLoop]
      rw [if_pos]
      · exact ih hrest
      · simpa [attemptQualifiesEmpty] using ha

/-- C3 counterexample: with previous catalog FOO and one refresh attempt
whose qualifying set is empty, the catalog after the refresh is the
fixed fallback seed set, not the previous catalog the claim says is
retained. -/
theorem refresh_discards_previous_catalog_cex :
    fetch_solana_tokens [("FOO", "FooAddr")] [.ok []] = fallbackTokens ∧
    fallbackTokens ≠ [("FOO", "FooAddr")] := by
  exact ⟨rfl, by decide⟩

/-- C3 (amended): a refresh whose attempts all fail to produce a
non-empty qualifying set assigns the fixed fallback seed set regardless
of the previous catalog, and the catalog after any refresh is never
empty. -/
theorem refresh_fallback_never_empty (prev : List (String × String)) (attempts : List Attempt) :
    fetch_solana_tokens prev attempts ≠ [] ∧
    ((∀ a ∈ attempts, attemptQualifiesEmpty a = true) →
      fetch_solana_tokens prev attempts = fallbackTokens) := by
  constructor
  · exact fetchLoop_ne_nil _
  · intro h
    exact fetchLoop_all_empty _ fun a ha => h a (List.take_subset 5 attempts ha)

/-- Witness for the amended C3 statement at a concrete previous catalog
and a single failing attempt. -/
theorem refresh_fallback_never_empty_witness :
    fetch_solana_tokens [("FOO", "FooAddr")] [Attempt.exn] ≠ [] ∧
    fetch_solana_tokens [("FOO", "FooAddr")] [Attempt.exn] = fallbackTokens := by
  refine ⟨(refresh_fallback_never_empty [("FOO", "FooAddr")] [Attempt.exn]).1,
    (refresh_fallback_never_empty [("FOO", "FooAddr")] [Attempt.exn]).2 ?_⟩
  decide

/-- C9: authenticated start and stop are idempotent: from any prior run
flag, two consecutive starts leave the flag true and both return the
body started with success, and dually for stop with the body stopped. -/
theorem start_stop_idempotent (apiKey : String) (running : Bool) :
    handleStart apiKey running (some apiKey) = (true, .ok "started") ∧
    handleStart apiKey (handleStart apiKey running (some apiKey)).1 (some apiKey) =
      (true, .ok "started") ∧
    handleStop apiKey running (some apiKey) = (false, .ok "stopped") ∧
    handleStop apiKey (handleStop apiKey running (some apiKey)).1 (some apiKey) =
      (false, .ok "stopped") := by
  simp [handleStart, handleStop, verify_api_key]

theorem processEntry_not_executed (symbol : String) (e : EntryData) (o : EntryOutcome)
    (h : processEntry symbol e = .ok o) : o.isExecuted = false := by
  unfold processEntry at h
  split at h
  · cases h
    rfl
  · split at h
    · cases h
    · cases h
      rfl
    · split at h
      · cases h
      · cases h
        rfl

theorem execCount_scanLoop (env : String → EntryData) (l : List (String × String)) :
    execCount (scanLoop env l).1 = 0 := by
  induction l with
  | nil => rfl
  | cons hd tl ih =>
    obtain ⟨sym, addr⟩ := hd
    simp only [scanLoop]
    cases hpe : processEntry sym (env addr) with
    | error e => rfl
    | ok o =>
      simp only [execCount, List.countP_cons,
        processEntry_not_executed sym (env addr) o hpe]
      simpa [execCount] using ih

/-- C4: the constructor fixes the simulate flag to true, and no scan
cycle ever records an execution submission: across any sequence of scan
cycles the total execution count stays zero, however many profitable
entries the cycles see. -/
theorem simulate_mode_no_execution
    (cycles : List (List (String × String) × (String → EntryData))) :
    defaultConfig.simulate = true ∧
    (cycles.map fun c => execCount (scan_for_opportunities c.1 c.2).1).sum = 0 := by
  refine ⟨rfl, ?_⟩
  induction cycles with
  | nil => rfl
  | cons hd tl ih =>
    simp only [List.map_cons, List.sum_cons, ih]
    simp [scan_for_opportunities, execCount_scanLoop]

/-- C5 counterexample: a coin with market cap 2,000,000 and a solana
address but zero liquidity, zero volume and a 90% 24h move is admitted
by the refresh and stored in the catalog, although it fails the
liquidity, volume-band and price-change filters the claim requires. -/
theorem admitted_without_spec_filters_cex :
    coinAdmitted cexCoin = true ∧
    buildTokens [cexCoin] = [("AAA", "AaaAddr")] ∧
    specQualifies cexThresholds cexCoin = false := by
  refine ⟨rfl, ?_, rfl⟩
  decide

/-- C5 (amended): the refresh admission test is exactly the conjunction
of the 1,000,000 market-cap floor and a truthy solana address; the
liquidity, volume-band and price-change filters named by the claim are
not applied during the refresh. -/
theorem coin_admission_characterization (c : Coin) :
    coinAdmitted c = (decide (1000000 ≤ c.market_cap) && truthyAddr c.platformsSolana) := by
  unfold coinAdmitted
  congr 1
  rw [← decide_not]
  simp [not_lt]

theorem processEntry_ok_of_isNum (symbol : String) (e : EntryData)
    (h : (fetchLiquidity e.liqResp).isNum = true) :
    ∃ o, processEntry symbol e = .ok o := by
  unfold processEntry
  cases hp : get_dexscreener_price e.priceResp with
  | none => exact ⟨_, rfl⟩
  | some p =>
    cases hl : fetchLiquidity e.liqResp with
    | num q =>
      simp only [pyLt, pyGt]
      by_cases h1 : q < 50000
      · rw [decide_eq_true h1]
        exact ⟨_, rfl⟩
      · rw [decide_eq_false h1]
        exact ⟨_, rfl⟩
    | str s =>
      rw [hl] at h
      simp [PyVal.isNum] at h

theorem scanLoop_total_of_isNum (env : String → EntryData)
    (h : ∀ a, (fetchLiquidity (env a).liqResp).isNum = true)
    (l : List (String × String)) :
    (scanLoop env l).2 = none ∧ (scanLoop env l).1.length = l.length := by
  induction l with
  | nil => exact ⟨rfl, rfl⟩
  | cons hd tl ih =>
    obtain ⟨sym, addr⟩ := hd
    obtain ⟨o, ho⟩ := processEntry_ok_of_isNum sym (env addr) (h addr)
    simp only [scanLoop, ho]
    exact ⟨ih.1, by simp [ih.2]⟩

/-- C6 (amended): exceptions inside the two guarded fetch blocks are
caught per entry — a failed price request yields a skip outcome and a
failed liquidity request leaves liquidity at 0 — and whenever the
liquidity scalars the payloads supply are numeric, the cycle processes
every one of its (at most 30) entries with no escaping exception; only a
non-numeric liquidity scalar, which is compared outside the guarded
blocks, can abort the cycle. -/
theorem scan_isolation (tokens : List (String × String)) (env : String → EntryData)
    (h : ∀ a, (fetchLiquidity (env a).liqResp).isNum = true) :
    (scan_for_opportunities tokens env).2 = none ∧
    (scan_for_opportunities tokens env).1.length = (tokens.take 30).length ∧
    (∀ symbol liq, processEntry symbol { priceResp := .exn, liqResp := liq } =
      .ok (.skipNoPrice symbol)) ∧
    fetchLiquidity .exn = .num 0 := by
  refine ⟨(scanLoop_total_of_isNum env h _).1, (scanLoop_total_of_isNum env h _).2,
    ?_, rfl⟩
  intro symbol liq
  rfl

/-- Witness for the amended C6 statement at a one-entry catalog with
well-typed responses. -/
theorem scan_isolation_witness :
    (scan_for_opportunities [("AAA", "addr1")] (fun _ => exampleEntryData)).2 = none :=
  (scan_isolation [("AAA", "addr1")] (fun _ => exampleEntryData) (fun _ => rfl)).1

/-- C6 counterexample: a malformed liquidity payload (a string usd
value) on the first entry raises outside the guarded blocks: the cycle
aborts with the exception and the second entry, which on its own would
produce an outcome, is never processed. -/
theorem entry_exception_escapes_cycle_cex :
    scan_for_opportunities [("AAA", "addr1"), ("BBB", "addr2")] cexEnv = ([], some ()) ∧
    scan_for_opportunities [("BBB", "addr2")] cexEnv =
      ([.scanned "BBB" (3 / 2) (.num 120000) 0 true false], none) := by
  exact ⟨rfl, rfl⟩

/-- C7: get_jupiter_quote yields none, never an exception, on transport
failure, on a non-200 status and on a missing or empty route list; when
it yields a route, that route is the first element of the payload's
route list. -/
theorem jupiter_quote_none_or_first (r : Except Unit JupResponse) :
    get_jupiter_quote (Except.error ()) = none ∧
    (∀ resp, r = .ok resp → resp.status ≠ 200 → get_jupiter_quote r = none) ∧
    (∀ resp, r = .ok resp → (resp.routes = none ∨ resp.routes = some []) →
      get_jupiter_quote r = none) ∧
    (∀ q, get_jupiter_quote r = some q →
      ∃ resp rest, r = .ok resp ∧ resp.status = 200 ∧ resp.routes = some (q :: rest)) := by
  refine ⟨rfl, ?_, ?_, ?_⟩
  · intro resp hr hs
    subst hr
    simp only [get_jupiter_quote]
    rw [if_pos hs]
  · intro resp hr hcase
    subst hr
    simp only [get_jupiter_quote]
    rcases hcase with hnone | hnil
    · rw [hnone]
      split <;> rfl
    · rw [hnil]
      split <;> rfl
  · intro q hq
    cases r with
    | error e =>
      simp only [get_jupiter_quote] at hq
      exact Option.noConfusion hq
    | ok resp =>
      simp only [get_jupiter_quote] at hq
      split at hq
      · exact Option.noConfusion hq
      · rename_i hs
        split at hq
        · exact Option.noConfusion hq
        · exact Option.noConfusion hq
        · rename_i r0 rest hroutes
          rw [Option.some_inj] at hq
          refine ⟨resp, rest, rfl, not_not.mp hs, ?_⟩
          rw [← hq]
          exact hroutes

/-- Witness for C7 at a concrete non-success response. -/
theorem jupiter_quote_none_or_first_witness :
    get_jupiter_quote (Except.ok { status := 500, routes := some [route0] }) = none :=
  (jupiter_quote_none_or_first (Except.ok { status := 500, routes := some [route0] })).2.1
    { status := 500, routes := some [route0] } rfl (by decide)

/-- C8: a start or stop request presenting a missing or wrong credential
is answered with HTTP 401 and leaves the run flag at its prior value. -/
theorem auth_failure_401_no_mutation (apiKey : String) (running : Bool)
    (cred : Option String) (h : ∀ c, cred = some c → c ≠ apiKey) :
    handleStart apiKey running cred = (running, .err 401) ∧
    handleStop apiKey running cred = (running, .err 401) := by
  cases cred with
  | none => exact ⟨rfl, rfl⟩
  | some c =>
    have hc : c ≠ apiKey := h c rfl
    constructor <;> simp [handleStart, handleStop, verify_api_key, hc]

/-- Witness for C8 at a concrete wrong credential. -/
theorem auth_failure_401_no_mutation_witness :
    handleStart "secret" true (some "wrong") = (true, .err 401) ∧
    handleStop "secret" true (some "wrong") = (true, .err 401) :=
  auth_failure_401_no_mutation "secret" true (some "wrong")
    (fun c hc => by cases hc; decide)

theorem scanLoop_length_le (env : String → EntryData) (l : List (String × String)) :
    (scanLoop env l).1.length ≤ l.length := by
  induction l with
  | nil => simp [scanLoop]
  | cons hd tl ih =>
    obtain ⟨sym, addr⟩ := hd
    simp only [scanLoop]
    cases processEntry sym (env addr) with
    | error e => simp
    | ok o => simpa using Nat.succ_le_succ ih

/-- C10: one scan cycle processes at most the first 30 catalog entries:
scanning any catalog gives the same result as scanning only its first 30
entries, and at most 30 outcomes arise. -/
theorem scan_first_30_only (tokens : List (String × String)) (env : String → EntryData) :
    scan_for_opportunities tokens env = scan_for_opportunities (tokens.take 30) env ∧
    (scan_for_opportunities tokens env).1.length ≤ 30 := by
  constructor
  · unfold scan_for_opportunities
    rw [List.take_take, min_self]
  · calc (scan_for_opportunities tokens env).1.length
        ≤ (tokens.take 30).length := scanLoop_length_le env _
      _ ≤ 30 := by
        rw [List.length_take]
        exact Nat.min_le_left 30 tokens.length
